import Mathlib

/-!
Shallow embedding of the mtaalink marketplace backend (Rust/axum/sqlx)
for verification of its booking, review, messaging, favorite, onboarding
and admin-gate handlers.

The relational store is modelled as lists of rows; each handler is a pure
function from the store state (plus the request data and, where the code
reads the wall clock, an explicit time value) to an HTTP status code, an
optional payload, and the successor state.  Timestamps are modelled as
integers ordered like NaiveDateTime; ids are integers like the i32 keys
of the schema.  Store calls never fail in this pure model, except where a
handler branches on a store error explicitly (the admin gate), in which
case the lookup outcome is passed in as an argument.
-/

namespace Mtaalink

/-- Rust String::to_lowercase as used on the target-type and status
route values (all ASCII), modelled character-wise so that it evaluates
inside the kernel. -/
def lowerString (s : String) : String := String.mk (s.data.map Char.toLower)

/-- One row of the providers table (columns read by the handlers under
verification; nullable columns are options, mirroring the Rust structs). -/
structure ProviderRow where
  id : Int
  user_id : Int
  service_name : Option String
  service_description : Option String
  category : Option String
  location : Option String
  phone_number : Option String
  email : Option String
  website : Option String
  whatsapp : Option String
deriving DecidableEq, Repr

/-- One row of the businesses table (columns read by the handlers). -/
structure BusinessRow where
  id : Int
  user_id : Int
deriving DecidableEq, Repr

/-- One row of the services table (columns read by the booking handlers). -/
structure ServiceRow where
  id : Int
  target_type : String
  target_id : Int
  duration : Option Int
deriving DecidableEq, Repr

/-- One row of the bookings table, as in the Booking struct of
src/routes/bookings.rs. -/
structure BookingRow where
  id : Int
  client_id : Int
  target_type : String
  target_id : Int
  branch_id : Option Int
  service_id : Option Int
  service_description : String
  scheduled_time : Int
  status : String
  duration : Option Int
deriving DecidableEq, Repr

/-- One row of the reviews table. -/
structure ReviewRow where
  id : Int
  reviewer_id : Int
  target_type : String
  target_id : Int
  rating : Int
  comment : String
deriving DecidableEq, Repr

/-- One row of the interactions table (append-only log gating reviews). -/
structure InteractionRow where
  user_id : Int
  target_type : String
  target_id : Int
deriving DecidableEq, Repr

/-- One row of the messages table, as in the Message struct of
src/routes/messages.rs. -/
structure MessageRow where
  id : Int
  sender_id : Int
  receiver_id : Int
  target_type : String
  target_id : Int
  content : String
  is_read : Bool
  read_at : Option Int
deriving DecidableEq, Repr

/-- One row of the favorites table. -/
structure FavoriteRow where
  user_id : Int
  target_type : String
  target_id : Int
deriving DecidableEq, Repr

/-- The relational store: one list per table, plus the serial counters
that produce the RETURNING id of fresh bookings and reviews. -/
structure Db where
  businesses : List BusinessRow
  providers : List ProviderRow
  services : List ServiceRow
  bookings : List BookingRow
  reviews : List ReviewRow
  interactions : List InteractionRow
  messages : List MessageRow
  favorites : List FavoriteRow
  next_booking_id : Int
  next_review_id : Int
deriving DecidableEq, Repr

/-- The JSON payload of POST /bookings/createBooking: the request body is
deserialized into the full Booking struct, so it carries a client_id, id,
status and duration field even though the handler never reads them. -/
structure BookingPayload where
  id : Int
  client_id : Int
  target_type : String
  target_id : Int
  branch_id : Option Int
  service_id : Option Int
  service_description : String
  scheduled_time : Int
  status : String
  duration : Option Int
deriving DecidableEq, Repr

/-- Result of create_booking: HTTP status, the booking id of the 201
response when present, and the successor store. -/
structure CreateBookingResult where
  status : Nat
  booking_id : Option Int
  db : Db
deriving DecidableEq, Repr

/-- Existence check of the booking target, as the two SELECT id FROM
businesses or providers WHERE id queries of create_booking. -/
def targetExists (db : Db) (target_type : String) (target_id : Int) : Bool :=
  match target_type with
  | "business" => db.businesses.any (fun r => r.id == target_id)
  | "provider" => db.providers.any (fun r => r.id == target_id)
  | _ => false

/-- The exact-tuple slot conflict query of create_booking: SELECT id FROM
bookings WHERE target_type, target_id and scheduled_time all match. -/
def slotTaken (db : Db) (target_type : String) (target_id : Int)
    (scheduled_time : Int) : Bool :=
  db.bookings.any (fun b =>
    b.target_type == target_type && b.target_id == target_id &&
      b.scheduled_time == scheduled_time)

/-- The service existence check of create_booking: when a service_id is
supplied, SELECT id FROM services WHERE id, target_type and target_id all
match must return a row; with no service_id the check is skipped. -/
def serviceMissing (db : Db) (target_type : String) (target_id : Int)
    (service_id : Option Int) : Bool :=
  match service_id with
  | some sid =>
    (db.services.find? (fun s =>
      s.id == sid && s.target_type == target_type &&
        s.target_id == target_id)).isNone
  | none => false

/-- Handler create_booking of src/routes/bookings.rs.  The current wall
clock is passed as now; user_id is the authenticated caller id (already
parsed).  Checks run in source order: target type, service duration
resolution, positive target id, target existence, past time, slot
conflict, service existence, then the INSERT with status pending. -/
def create_booking (db : Db) (now : Int) (user_id : Int)
    (payload : BookingPayload) : CreateBookingResult :=
  let target_type := lowerString payload.target_type
  if target_type ≠ "business" ∧ target_type ≠ "provider" then
    ⟨400, none, db⟩
  else
    let client_id := user_id
    let target_id := payload.target_id
    let service_duration :=
      match payload.service_id with
      | some sid =>
        match db.services.find? (fun s => s.id == sid) with
        | some s => s.duration.getD 60
        | none => 60
      | none => 60
    if target_id ≤ 0 then ⟨400, none, db⟩
    else if ¬ targetExists db target_type target_id then ⟨400, none, db⟩
    else if payload.scheduled_time < now then ⟨400, none, db⟩
    else if slotTaken db target_type target_id payload.scheduled_time then
      ⟨400, none, db⟩
    else if serviceMissing db target_type target_id payload.service_id then
      ⟨400, none, db⟩
    else
      let b : BookingRow :=
        { id := db.next_booking_id
          client_id := client_id
          target_type := target_type
          target_id := target_id
          branch_id := payload.branch_id
          service_id := payload.service_id
          service_description := payload.service_description.trim
          scheduled_time := payload.scheduled_time
          status := "pending"
          duration := some service_duration }
      ⟨201, some db.next_booking_id,
        { db with bookings := db.bookings ++ [b],
                  next_booking_id := db.next_booking_id + 1 }⟩

/-- Ownership check of update_booking: SELECT id FROM businesses or
providers WHERE id = target_id AND user_id = user_id. -/
def ownsTarget (db : Db) (target_type : String) (target_id user_id : Int) :
    Bool :=
  match target_type with
  | "business" =>
    db.businesses.any (fun r => r.id == target_id && r.user_id == user_id)
  | "provider" =>
    db.providers.any (fun r => r.id == target_id && r.user_id == user_id)
  | _ => false

/-- Handler update_booking of src/routes/bookings.rs (POST /:id/status).
Validates the target type and ids, checks ownership of the target, and
then runs an unconditional UPDATE of the status column on every booking
row matching the id, target type and target id; the intermediate
booking-existence SELECT of the source is computed but never consulted,
so it has no effect in the pure model.  No check of the current status is
performed before the UPDATE. -/
def update_booking (db : Db) (user_id : Int) (id : Int)
    (target_id : Int) (target_type : String) (payload_status : String) :
    Nat × Db :=
  let tt := lowerString target_type
  let status := lowerString payload_status
  if tt ≠ "provider" ∧ tt ≠ "business" then (400, db)
  else if target_id ≤ 0 ∨ id ≤ 0 then (400, db)
  else if ¬ ownsTarget db tt target_id user_id then (403, db)
  else
    (200,
      { db with bookings := db.bookings.map (fun b =>
          if b.id == id && b.target_type == tt && b.target_id == target_id
          then { b with status := status } else b) })

/-- Handler reschedule_booking of src/routes/bookings.rs
(POST /:id/reschedule).  Rejects non-positive ids and times in the past,
then runs UPDATE bookings SET scheduled_time WHERE id AND client_id with
no slot-conflict check; the UPDATE succeeding (even over zero rows)
yields 200. -/
def reschedule_booking (db : Db) (now : Int) (user_id : Int) (id : Int)
    (new_scheduled_time : Int) : Nat × Db :=
  if id ≤ 0 then (400, db)
  else if new_scheduled_time < now then (400, db)
  else
    (200,
      { db with bookings := db.bookings.map (fun b =>
          if b.id == id && b.client_id == user_id
          then { b with scheduled_time := new_scheduled_time } else b) })

/-- One row of the admins table as read by the admin gate. -/
structure AdminRow where
  id : Int
  is_super_admin : Option Bool
deriving DecidableEq, Repr

/-- Middleware require_admin of src/extractors/administrator.rs, as a
function of the outcome of the SELECT is_super_admin FROM admins WHERE id
query: the only match arm that lets the request proceed is a returned row
whose flag unwraps to true; every other outcome, including a store error,
falls to the catch-all arm and produces 403 Forbidden. -/
def require_admin (admin_check : Except Unit (Option AdminRow)) :
    Except Nat Unit :=
  match admin_check with
  | Except.ok (some row) =>
    if row.is_super_admin.getD false then Except.ok ()
    else Except.error 403
  | _ => Except.error 403

/-- An admin-gated route as composed in the router: the CurrentUser
extractor resolves the identity first (401 when the bearer token is
absent or invalid, in which case the admins table is never consulted),
then require_admin runs against the store lookup of that user id, and
only on success does the inner handler run (modelled as status 200). -/
def handle_admin_route (auth : Option Int)
    (lookup : Int → Except Unit (Option AdminRow)) : Nat :=
  match auth with
  | none => 401
  | some uid =>
    match require_admin (lookup uid) with
    | Except.ok () => 200
    | Except.error s => s

/-- ROUND(AVG(rating)::numeric, 2) of the aggregate queries, expressed in
hundredths: the average s / n (sum of ratings over their count, n > 0)
rounded to two decimal places with ties away from zero, the rounding mode
of the Postgres numeric ROUND function, returned scaled by 100 so the
value stays an exact integer.  For nonnegative s this is the floor of
100 * s / n + 1 / 2; negative averages round away from zero. -/
def pgRound2Hundredths (s : Int) (n : Nat) : Int :=
  if 0 ≤ s then (200 * s + n) / (2 * n)
  else - ((200 * (-s) + n) / (2 * n))

/-- The AggregatedRating row of src/routes/reviews.rs; average_rating is
kept in exact hundredths here (the handler rounds the numeric average to
two decimals before it is returned, so scaling by 100 loses nothing). -/
structure AggregatedRating where
  target_id : Int
  average_rating_x100 : Int
  review_count : Nat
deriving DecidableEq, Repr

/-- Handler get_review_agg_by_id of src/routes/reviews.rs.  The SQL
aggregate SELECT ROUND(AVG(rating)::numeric,2), COUNT(*) GROUP BY
target_id is embedded directly: with no matching review rows the grouped
query returns no row at all, so fetch_optional yields none and the
response carries a null aggregate with status 200. -/
def get_review_agg_by_id (db : Db) (target_type : String)
    (target_id : Int) : Nat × Option AggregatedRating :=
  let tt := lowerString target_type
  if tt ≠ "provider" ∧ tt ≠ "business" then (400, none)
  else if target_id ≤ 0 then (400, none)
  else
    let rows := db.reviews.filter (fun r =>
      r.target_type == tt && r.target_id == target_id)
    match rows with
    | [] => (200, none)
    | _ =>
      let s : Int := (rows.map (fun r => r.rating)).foldl (· + ·) 0
      (200, some
        { target_id := target_id
          average_rating_x100 := pgRound2Hundredths s rows.length
          review_count := rows.length })

/-- Target existence check of create_reviews (providers and businesses
tables), yielding 404 when absent. -/
def reviewTargetExists (db : Db) (target_type : String) (target_id : Int) :
    Bool :=
  match target_type with
  | "provider" => db.providers.any (fun r => r.id == target_id)
  | "business" => db.businesses.any (fun r => r.id == target_id)
  | _ => false

/-- Duplicate check of create_reviews: SELECT id FROM reviews WHERE
reviewer_id, target_type and target_id all match. -/
def reviewExists (db : Db) (reviewer_id : Int) (target_type : String)
    (target_id : Int) : Bool :=
  db.reviews.any (fun r =>
    r.reviewer_id == reviewer_id && r.target_type == target_type &&
      r.target_id == target_id)

/-- Interaction gate of create_reviews: SELECT id FROM interactions WHERE
user_id, target_type and target_id all match. -/
def interactionExists (db : Db) (user_id : Int) (target_type : String)
    (target_id : Int) : Bool :=
  db.interactions.any (fun r =>
    r.user_id == user_id && r.target_type == target_type &&
      r.target_id == target_id)

/-- The target-type match of create_reviews: the lowercased value passes
through when it is provider or business, the service_provider alias maps
to provider, and anything else is rejected. -/
def normalizeReviewTarget (s : String) : Option String :=
  let tt0 := lowerString s
  if tt0 = "provider" ∨ tt0 = "business" then some tt0
  else if tt0 = "service_provider" then some "provider"
  else none

/-- Handler create_reviews of src/routes/reviews.rs.  Checks run in
source order: non-empty comment (the validator length bound and the
explicit is_empty check coincide), target type normalization (with the
service_provider alias), positive target id, target existence (404),
duplicate review (409), prior interaction (403), then the INSERT
returning the fresh review id (201). -/
def create_reviews (db : Db) (user_id : Int) (params_target_type : String)
    (params_target_id : Int) (comment : String) (rating : Int) :
    Nat × Option Int × Db :=
  if comment = "" then (400, none, db)
  else
    match normalizeReviewTarget params_target_type with
    | some tt =>
      if params_target_id ≤ 0 then (400, none, db)
      else if ¬ reviewTargetExists db tt params_target_id then
        (404, none, db)
      else if reviewExists db user_id tt params_target_id then
        (409, none, db)
      else if ¬ interactionExists db user_id tt params_target_id then
        (403, none, db)
      else
        let r : ReviewRow :=
          { id := db.next_review_id
            reviewer_id := user_id
            target_type := tt
            target_id := params_target_id
            rating := rating
            comment := comment }
        (201, some db.next_review_id,
          { db with reviews := db.reviews ++ [r],
                    next_review_id := db.next_review_id + 1 })
    | none => (400, none, db)

/-- Helper get_target_id of src/routes/messages.rs: resolves the target
row (provider or business) owned by the user, failing when there is none
or the target type is unknown. -/
def get_target_id (db : Db) (user_id : Int) (target_type : String) :
    Option Int :=
  match target_type with
  | "provider" =>
    (db.providers.find? (fun r => r.user_id == user_id)).map (fun r => r.id)
  | "business" =>
    (db.businesses.find? (fun r => r.user_id == user_id)).map (fun r => r.id)
  | _ => none

/-- The MarkReadPayload of src/routes/messages.rs. -/
structure MarkReadPayload where
  target_type : String
  target_id : Int
  sender_id : Int
  message_ids : List Int
deriving DecidableEq, Repr

/-- The per-row effect of the UPDATE of mark_messages_as_read: a message
in the requested id set, addressed to the resolved receiver and still
unread becomes read with read_at = now; every other message is kept as
is. -/
def markReadRow (ids : List Int) (receiver_id now : Int)
    (m : MessageRow) : MessageRow :=
  if ids.contains m.id && m.receiver_id == receiver_id && m.is_read == false
  then { m with is_read := true, read_at := some now }
  else m

/-- Handler mark_messages_as_read of src/routes/messages.rs.  After the
payload validations and the resolution of the receiver id via
get_target_id (403 on failure), runs UPDATE messages SET is_read = TRUE,
read_at = now WHERE id = ANY(ids) AND receiver_id = resolved AND
is_read = FALSE, and reports 200 whatever the number of affected rows. -/
def mark_messages_as_read (db : Db) (now : Int) (user_id : Int)
    (payload : MarkReadPayload) : Nat × Db :=
  if payload.message_ids = [] then (400, db)
  else
    let tt := lowerString payload.target_type
    if payload.target_type = "" ∨ (tt ≠ "provider" ∧ tt ≠ "business") then
      (400, db)
    else if payload.target_id ≤ 0 ∨ payload.sender_id ≤ 0 then (400, db)
    else
      match get_target_id db user_id tt with
      | none => (403, db)
      | some receiver_id =>
        let f := markReadRow payload.message_ids receiver_id now
        (200, { db with messages := db.messages.map f })

/-- Handler add_favorite of src/routes/favorites.rs: after the target
type and id validations, INSERT ... ON CONFLICT (user_id, target_type,
target_id) DO NOTHING, reporting 200 either way. -/
def add_favorite (db : Db) (user_id : Int) (target_type : String)
    (target_id : Int) : Nat × Db :=
  let tt := lowerString target_type
  if tt ≠ "provider" ∧ tt ≠ "business" then (400, db)
  else if target_id ≤ 0 then (400, db)
  else if db.favorites.any (fun f =>
      f.user_id == user_id && f.target_type == tt && f.target_id == target_id)
  then (200, db)
  else
    (200, { db with favorites := db.favorites ++
      [{ user_id := user_id, target_type := tt, target_id := target_id }] })

/-- The ProviderOnboardRequest payload of src/routes/service_providers.rs. -/
structure ProviderOnboardRequest where
  service_name : String
  service_description : String
  category : Option String
  location : Option String
  phone_number : Option String
  email : String
  website : Option String
  whatsapp : Option String
deriving DecidableEq, Repr

/-- Email shape predicate standing in for the validator crate's email
check (an external collaborator per the spec); the claims under
verification do not depend on its exact shape. -/
def emailShapeOk (s : String) : Bool := s.data.any (fun c => c == Char.ofNat 64)

/-- The derive(Validate) bounds of ProviderOnboardRequest: service_name
at least 3 characters, service_description at least 10, phone_number (if
present) at least 10, email of email shape. -/
def onboardPayloadValid (p : ProviderOnboardRequest) : Bool :=
  decide (3 ≤ p.service_name.length) &&
  decide (10 ≤ p.service_description.length) &&
  (match p.phone_number with
   | some ph => decide (10 ≤ ph.length)
   | none => true) &&
  emailShapeOk p.email

/-- Handler onboard_service_provider of src/routes/service_providers.rs.
Validates the payload, then looks for a providers row of this user_id:
when one exists, runs the transactional UPDATE of the eight profile
columns WHERE user_id (RETURNING id) and commits, answering 201 with the
row id; when none exists, rolls back and answers 400 with the message
that the provider does not exist. -/
def onboard_service_provider (db : Db) (user_id : Int)
    (p : ProviderOnboardRequest) : Nat × Option Int × Db :=
  if ¬ onboardPayloadValid p then (400, none, db)
  else
    match db.providers.find? (fun r => r.user_id == user_id) with
    | some row =>
      (201, some row.id,
        { db with providers := db.providers.map (fun r =>
            if r.user_id == user_id then
              { r with service_name := some p.service_name
                       service_description := some p.service_description
                       category := p.category
                       location := p.location
                       phone_number := p.phone_number
                       email := some p.email
                       website := p.website
                       whatsapp := p.whatsapp }
            else r) })
    | none => (400, none, db)

/-! Theorems -/

/-- C10: create_booking records the authenticated caller as the client:
the client_id field of the request payload is never read, so two requests
by the same caller differing only in the payload client_id produce
identical results, and any row the call inserts carries the caller's user
id as its client_id. -/
theorem create_booking_ignores_payload_client_id (db : Db) (now uid : Int)
    (p : BookingPayload) (c₁ c₂ : Int) :
    create_booking db now uid { p with client_id := c₁ } =
      create_booking db now uid { p with client_id := c₂ } ∧
    ((create_booking db now uid p).db.bookings = db.bookings ∨
      ∃ b, (create_booking db now uid p).db.bookings = db.bookings ++ [b] ∧
        b.client_id = uid) := by
  constructor
  · cases p
    rfl
  · unfold create_booking
    dsimp only
    repeat' split
    all_goals first
      | exact Or.inl rfl
      | exact Or.inr ⟨_, rfl, rfl⟩

/-- C1 (amended): a create-booking request with a scheduled_time strictly
in the past fails with 400 and leaves the store unchanged; so does a
request whose exact (target_type, target_id, scheduled_time) tuple is
already booked; and when the target type is valid, the target id is
positive and its row exists, the time is not in the past, the slot is
free and any supplied service_id names a service of that same target, a
booking row is inserted with status pending and the call answers 201 with
the fresh booking id. -/
theorem create_booking_spec (db : Db) (now uid : Int) (p : BookingPayload) :
    (p.scheduled_time < now →
      (create_booking db now uid p).status = 400 ∧
      (create_booking db now uid p).db = db) ∧
    (slotTaken db (lowerString p.target_type) p.target_id p.scheduled_time = true →
      (create_booking db now uid p).status = 400 ∧
      (create_booking db now uid p).db = db) ∧
    (((lowerString p.target_type) = "business" ∨ (lowerString p.target_type) = "provider") →
      0 < p.target_id →
      targetExists db (lowerString p.target_type) p.target_id = true →
      ¬ p.scheduled_time < now →
      slotTaken db (lowerString p.target_type) p.target_id p.scheduled_time = false →
      serviceMissing db (lowerString p.target_type) p.target_id p.service_id = false →
      (create_booking db now uid p).status = 201 ∧
      (create_booking db now uid p).booking_id = some db.next_booking_id ∧
      ∃ b, (create_booking db now uid p).db.bookings = db.bookings ++ [b] ∧
        b.status = "pending" ∧ b.id = db.next_booking_id ∧
        b.client_id = uid ∧ b.target_type = (lowerString p.target_type) ∧
        b.target_id = p.target_id ∧
        b.scheduled_time = p.scheduled_time) := by
  unfold create_booking
  dsimp only
  refine ⟨?_, ?_, ?_⟩
  · intro hpast
    repeat' split
    all_goals simp_all
  · intro hslot
    repeat' split
    all_goals simp_all
  · intro htt htid hex hpast hfree hsvc
    repeat' split
    all_goals try simp_all
    all_goals omega

/-- A store with one provider row (id 1, owned by user 7) and nothing
else; both serial counters start at 1. -/
def exDbProvider : Db :=
  { businesses := []
    providers := [{ id := 1, user_id := 7, service_name := none,
                    service_description := none, category := none,
                    location := none, phone_number := none, email := none,
                    website := none, whatsapp := none }]
    services := []
    bookings := []
    reviews := []
    interactions := []
    messages := []
    favorites := []
    next_booking_id := 1
    next_review_id := 1 }

/-- A booking request against provider 1 at time 100 naming the absent
service 5. -/
def exPayloadBadService : BookingPayload :=
  { id := 0, client_id := 0, target_type := "provider", target_id := 1,
    branch_id := none, service_id := some 5, service_description := "cut",
    scheduled_time := 100, status := "", duration := none }

/-- C1 counterexample: at time 50, provider 1 exists, the requested time
100 is not in the past and the slot is free, yet the call answers 400 and
inserts nothing, because the supplied service_id names no service of the
target — the claim as stated promises 201 here. -/
theorem create_booking_claim_counterexample :
    targetExists exDbProvider "provider" 1 = true ∧
    ¬ exPayloadBadService.scheduled_time < 50 ∧
    slotTaken exDbProvider "provider" 1
      exPayloadBadService.scheduled_time = false ∧
    (create_booking exDbProvider 50 9 exPayloadBadService).status = 400 ∧
    (create_booking exDbProvider 50 9 exPayloadBadService).db =
      exDbProvider := by
  decide

/-- The same booking request with no service_id. -/
def exPayloadNoService : BookingPayload :=
  { id := 0, client_id := 0, target_type := "provider", target_id := 1,
    branch_id := none, service_id := none, service_description := "cut",
    scheduled_time := 100, status := "", duration := none }

/-- Witness for create_booking_spec: the success clause applied at a
concrete request that passes every check. -/
theorem create_booking_spec_witness :
    (create_booking exDbProvider 50 9 exPayloadNoService).status = 201 ∧
    (create_booking exDbProvider 50 9 exPayloadNoService).booking_id =
      some exDbProvider.next_booking_id ∧
    ∃ b, (create_booking exDbProvider 50 9 exPayloadNoService).db.bookings =
        exDbProvider.bookings ++ [b] ∧
      b.status = "pending" ∧ b.id = exDbProvider.next_booking_id ∧
      b.client_id = 9 ∧
      b.target_type = (lowerString exPayloadNoService.target_type) ∧
      b.target_id = exPayloadNoService.target_id ∧
      b.scheduled_time = exPayloadNoService.scheduled_time :=
  (create_booking_spec exDbProvider 50 9 exPayloadNoService).2.2
    (by decide) (by decide) (by decide) (by decide) (by decide) (by decide)

/-- C2 (amended): update_booking enforces no state machine: whenever the
caller owns the valid (target_type, target_id) and the ids are positive,
the UPDATE sets the status column of every booking row matching the id
and target to the requested lowercased value, whatever its current status
(terminal statuses completed, rejected and cancelled included), touching
nothing else, and answers 200. -/
theorem update_booking_unconditional (db : Db) (uid id tid : Int)
    (tt s : String)
    (h1 : lowerString tt = "provider" ∨ lowerString tt = "business")
    (h2 : 0 < tid) (h3 : 0 < id)
    (h4 : ownsTarget db (lowerString tt) tid uid = true) :
    (update_booking db uid id tid tt s).1 = 200 ∧
    ∃ f, (update_booking db uid id tid tt s).2 =
        { db with bookings := db.bookings.map f } ∧
      ∀ b : BookingRow,
        ((b.id = id ∧ b.target_type = lowerString tt ∧ b.target_id = tid) →
          f b = { b with status := lowerString s }) ∧
        (¬ (b.id = id ∧ b.target_type = lowerString tt ∧ b.target_id = tid) →
          f b = b) := by
  unfold update_booking
  dsimp only
  have hcond : ¬ (lowerString tt ≠ "provider" ∧ lowerString tt ≠ "business") := by
    tauto
  rw [if_neg hcond, if_neg (by omega), if_neg (by simp [h4])]
  refine ⟨rfl, ?_⟩
  refine ⟨_, rfl, ?_⟩
  intro b
  constructor
  · intro hb
    simp [hb.1, hb.2.1, hb.2.2]
  · intro hb
    have : ¬ (b.id == id && b.target_type == lowerString tt &&
        b.target_id == tid) = true := by
      simp only [Bool.and_eq_true, beq_iff_eq]
      tauto
    simp [this]

/-- A booking of provider 1 by client 2 whose status is the terminal
value completed. -/
def exBookingCompleted : BookingRow :=
  { id := 1, client_id := 2, target_type := "provider", target_id := 1,
    branch_id := none, service_id := none, service_description := "cut",
    scheduled_time := 100, status := "completed", duration := some 60 }

/-- A store with provider 1 owned by user 7 and the single completed
booking. -/
def exDbCompleted : Db :=
  { exDbProvider with
      bookings := [exBookingCompleted]
      next_booking_id := 2 }

/-- C2 counterexample: booking 1 is in the terminal status completed, yet
the owner's update_status call to pending answers 200 and moves it back
to pending — a transition out of a terminal status, which the claim says
can never occur. -/
theorem update_booking_claim_counterexample :
    exDbCompleted.bookings.map (fun b => b.status) = ["completed"] ∧
    (update_booking exDbCompleted 7 1 1 "provider" "pending").1 = 200 ∧
    (update_booking exDbCompleted 7 1 1 "provider" "pending").2.bookings.map
      (fun b => b.status) = ["pending"] := by
  decide

/-- Witness for update_booking_unconditional: applied at the concrete
completed booking, whose status the matching rule rewrites to pending. -/
theorem update_booking_unconditional_witness :
    (update_booking exDbCompleted 7 1 1 "provider" "pending").1 = 200 ∧
    ∃ f, (update_booking exDbCompleted 7 1 1 "provider" "pending").2 =
        { exDbCompleted with bookings := exDbCompleted.bookings.map f } ∧
      ∀ b : BookingRow,
        ((b.id = 1 ∧ b.target_type = lowerString "provider" ∧
            b.target_id = 1) →
          f b = { b with status := lowerString "pending" }) ∧
        (¬ (b.id = 1 ∧ b.target_type = lowerString "provider" ∧
            b.target_id = 1) →
          f b = b) :=
  update_booking_unconditional exDbCompleted 7 1 1 "provider" "pending"
    (by decide) (by decide) (by decide) (by decide)

/-- C3 counterexample: when the store lookup of the administrator flag
itself errors, the catch-all match arm of require_admin fires and the
request fails with 403 — not with 500 as the claim states. -/
theorem require_admin_store_error_counterexample :
    handle_admin_route (some 1) (fun _ => Except.error ()) = 403 ∧
    require_admin (Except.error ()) = Except.error 403 :=
  ⟨rfl, rfl⟩

/-- C3 (amended): on an admin-gated route the admin check runs only after
identity resolution (an unresolved identity yields 401 whatever the
admins store holds); with identity resolved, a successful lookup with the
flag set lets the request proceed, a successful lookup with the flag
unset or no admin row yields 403, and a store error during the lookup
also yields 403. -/
theorem handle_admin_route_spec (uid : Int)
    (lookup : Int → Except Unit (Option AdminRow)) :
    (∀ l₂ : Int → Except Unit (Option AdminRow),
      handle_admin_route none lookup = 401 ∧
      handle_admin_route none lookup = handle_admin_route none l₂) ∧
    (∀ row : AdminRow, lookup uid = Except.ok (some row) →
      row.is_super_admin.getD false = true →
      handle_admin_route (some uid) lookup = 200) ∧
    (∀ row : AdminRow, lookup uid = Except.ok (some row) →
      row.is_super_admin.getD false = false →
      handle_admin_route (some uid) lookup = 403) ∧
    (lookup uid = Except.ok none →
      handle_admin_route (some uid) lookup = 403) ∧
    (lookup uid = Except.error () →
      handle_admin_route (some uid) lookup = 403) := by
  refine ⟨fun l₂ => ⟨rfl, rfl⟩, ?_, ?_, ?_, ?_⟩
  · intro row hrow hflag
    simp [handle_admin_route, require_admin, hrow, hflag]
  · intro row hrow hflag
    simp [handle_admin_route, require_admin, hrow, hflag]
  · intro hrow
    simp [handle_admin_route, require_admin, hrow]
  · intro hrow
    simp [handle_admin_route, require_admin, hrow]

/-- Witness for handle_admin_route_spec: a store whose row for user 1 has
the administrator flag set lets the request proceed. -/
theorem handle_admin_route_spec_witness :
    handle_admin_route (some 1)
      (fun _ => Except.ok (some { id := 1, is_super_admin := some true })) =
      200 :=
  (handle_admin_route_spec 1
      (fun _ => Except.ok (some { id := 1, is_super_admin := some true }))).2.1
    { id := 1, is_super_admin := some true } rfl rfl

/-- A well-formed onboarding payload. -/
def exOnboardPayload : ProviderOnboardRequest :=
  { service_name := "Plumbing", service_description := "Fixing your pipes",
    category := none, location := none, phone_number := none,
    email := "p@example.com", website := none, whatsapp := none }

/-- An empty store: no provider profile row exists for any user. -/
def exDbEmpty : Db :=
  { businesses := [], providers := [], services := [], bookings := [],
    reviews := [], interactions := [], messages := [], favorites := [],
    next_booking_id := 1, next_review_id := 1 }

/-- C4: evaluation of onboard_service_provider at a valid payload for
user 7, who has no provider profile row: the handler answers 400 with no
row inserted (its message even directs the caller to the onboarding
route, though this is that route), where the claim and the spec promise
an inserted profile row and 201 Created.  For a user with an existing
row, the row is updated in place with no duplicate created and the call
answers 201, as the second conjunct shows on exDbProvider (whose provider
row 1 belongs to user 7). -/
theorem onboard_no_profile_rejected :
    (onboardPayloadValid exOnboardPayload = true ∧
     exDbEmpty.providers = [] ∧
     onboard_service_provider exDbEmpty 7 exOnboardPayload =
       (400, none, exDbEmpty)) ∧
    ((onboard_service_provider exDbProvider 7 exOnboardPayload).1 = 201 ∧
     (onboard_service_provider exDbProvider 7 exOnboardPayload).2.2.providers.length = 1 ∧
     (onboard_service_provider exDbProvider 7 exOnboardPayload).2.2.providers.map
        (fun r => (r.user_id, r.service_name, r.email)) =
       [(7, some "Plumbing", some "p@example.com")]) := by
  decide

/-- C5 counterexample: on a target with no reviews the grouped aggregate
query returns no row, so the call answers 200 with an absent (null)
aggregate, not the zero-valued aggregate the claim promises. -/
theorem get_review_agg_empty_counterexample :
    exDbProvider.reviews = [] ∧
    get_review_agg_by_id exDbProvider "provider" 1 = (200, none) ∧
    ∀ agg : AggregatedRating,
      (get_review_agg_by_id exDbProvider "provider" 1).2 ≠ some agg := by
  refine ⟨rfl, rfl, ?_⟩
  intro agg h
  exact Option.noConfusion h

/-- C5 (amended): an aggregate-rating query with a valid target type and
positive target id succeeds with 200; with no reviews for the target the
aggregate is absent (null) rather than zero-valued or an error, and with
reviews present it carries their count and their average rating rounded
to two decimals (ties away from zero), scaled to hundredths. -/
theorem get_review_agg_spec (db : Db) (ptt : String) (tid : Int)
    (h1 : lowerString ptt = "provider" ∨ lowerString ptt = "business")
    (h2 : 0 < tid) :
    (db.reviews.filter (fun r =>
        r.target_type == lowerString ptt && r.target_id == tid) = [] →
      get_review_agg_by_id db ptt tid = (200, none)) ∧
    (∀ r0 rs, db.reviews.filter (fun r =>
        r.target_type == lowerString ptt && r.target_id == tid) = r0 :: rs →
      get_review_agg_by_id db ptt tid = (200, some
        { target_id := tid
          average_rating_x100 :=
            pgRound2Hundredths ((r0 :: rs).map (fun r => r.rating)).sum
              (r0 :: rs).length
          review_count := (r0 :: rs).length })) := by
  have hcond : ¬ (lowerString ptt ≠ "provider" ∧ lowerString ptt ≠ "business") := by
    tauto
  constructor
  · intro hnil
    unfold get_review_agg_by_id
    rw [if_neg hcond, if_neg (by omega)]
    simp only [hnil]
  · intro r0 rs hcons
    unfold get_review_agg_by_id
    rw [if_neg hcond, if_neg (by omega)]
    simp only [hcons, List.sum_eq_foldl]

/-- A store holding provider 1 and two reviews of it with ratings 4 and
5. -/
def exDbTwoReviews : Db :=
  { exDbProvider with
      reviews :=
        [{ id := 1, reviewer_id := 2, target_type := "provider",
           target_id := 1, rating := 4, comment := "good" },
         { id := 2, reviewer_id := 3, target_type := "provider",
           target_id := 1, rating := 5, comment := "great" }]
      next_review_id := 3 }

/-- Witness for get_review_agg_spec: with ratings 4 and 5 the aggregate
is average 4.50 (450 hundredths) and count 2. -/
theorem get_review_agg_spec_witness :
    get_review_agg_by_id exDbTwoReviews "provider" 1 = (200, some
      { target_id := 1, average_rating_x100 := 450, review_count := 2 }) := by
  have h := (get_review_agg_spec exDbTwoReviews "provider" 1
      (by decide) (by decide)).2
    (exDbTwoReviews.reviews.get ⟨0, by decide⟩)
    [exDbTwoReviews.reviews.get ⟨1, by decide⟩] (by decide)
  exact h.trans (by decide)

/-- At most one review per (reviewer_id, target_type, target_id): any two
review rows agreeing on the triple are the same row. -/
def reviewsUnique (db : Db) : Prop :=
  ∀ r₁ ∈ db.reviews, ∀ r₂ ∈ db.reviews,
    r₁.reviewer_id = r₂.reviewer_id → r₁.target_type = r₂.target_type →
      r₁.target_id = r₂.target_id → r₁ = r₂

lemma reviewExists_false_no_row (db : Db) (uid : Int) (tt : String)
    (tid : Int) (h : reviewExists db uid tt tid = false) :
    ∀ r ∈ db.reviews,
      ¬ (r.reviewer_id = uid ∧ r.target_type = tt ∧ r.target_id = tid) := by
  intro r hr hcontra
  have : reviewExists db uid tt tid = true := by
    unfold reviewExists
    rw [List.any_eq_true]
    exact ⟨r, hr, by simp [hcontra.1, hcontra.2.1, hcontra.2.2]⟩
  rw [h] at this
  exact Bool.noConfusion this

/-- C6: for a well-formed create-review call (non-empty comment, valid
target type, positive target id, existing target): a duplicate review by
the same reviewer for the same target fails with 409 and inserts nothing;
absent a duplicate, a reviewer with no recorded interaction with the
target fails with 403 and inserts nothing; and the at-most-one-review
invariant is preserved by the call, from every starting state in which it
holds. -/
theorem create_reviews_spec (db : Db) (uid : Int) (ptt : String)
    (tid : Int) (comment : String) (rating : Int) (tt : String)
    (hc : comment ≠ "") (htt : normalizeReviewTarget ptt = some tt)
    (htid : 0 < tid) (hex : reviewTargetExists db tt tid = true) :
    (reviewExists db uid tt tid = true →
      create_reviews db uid ptt tid comment rating = (409, none, db)) ∧
    (reviewExists db uid tt tid = false →
      interactionExists db uid tt tid = false →
      create_reviews db uid ptt tid comment rating = (403, none, db)) ∧
    (reviewsUnique db →
      reviewsUnique (create_reviews db uid ptt tid comment rating).2.2) := by
  unfold create_reviews
  rw [if_neg hc, htt]
  dsimp only
  rw [if_neg (by omega), if_neg (by simp [hex])]
  refine ⟨fun hdup => by rw [if_pos hdup], fun hdup hint => ?_, fun huniq => ?_⟩
  · rw [if_neg (by simp [hdup]), if_pos (by simp [hint])]
  · by_cases hdup : reviewExists db uid tt tid = true
    · rw [if_pos hdup]
      exact huniq
    · replace hdup := Bool.eq_false_iff.mpr hdup
      rw [if_neg (by simp [hdup])]
      by_cases hint : interactionExists db uid tt tid = true
      · rw [if_neg (by simp [hint])]
        intro r₁ h₁ r₂ h₂ hrev htt htid
        have hnone := reviewExists_false_no_row db uid tt tid hdup
        simp only [List.mem_append, List.mem_singleton] at h₁ h₂
        rcases h₁ with h₁ | h₁ <;> rcases h₂ with h₂ | h₂
        · exact huniq r₁ h₁ r₂ h₂ hrev htt htid
        · exfalso
          apply hnone r₁ h₁
          subst h₂
          exact ⟨hrev, htt, htid⟩
        · exfalso
          apply hnone r₂ h₂
          subst h₁
          exact ⟨hrev.symm, htt.symm, htid.symm⟩
        · rw [h₁, h₂]
      · rw [if_pos (by simp [Bool.eq_false_iff.mpr hint])]
        exact huniq

/-- Witness for create_reviews_spec: reviewer 2 already reviewed provider
1 in exDbTwoReviews, so a second attempt answers 409 and changes
nothing. -/
theorem create_reviews_spec_witness :
    create_reviews exDbTwoReviews 2 "provider" 1 "again" 4 =
      (409, none, exDbTwoReviews) :=
  (create_reviews_spec exDbTwoReviews 2 "provider" 1 "again" 4 "provider"
      (by decide) (by decide) (by decide) (by decide)).1 (by decide)

/-- C7: a reschedule request with a new time strictly in the past fails
with 400 and changes nothing; otherwise (positive booking id, time not in
the past) the call answers 200 and updates exactly the scheduled_time of
the bookings matching the id and the calling client — every other field
of every booking, every non-matching booking and every other table are
unchanged — and no slot-conflict check is re-run: no hypothesis about
occupancy of the new time is needed for the 200 answer. -/
theorem reschedule_booking_spec (db : Db) (now uid id t : Int) :
    (t < now → reschedule_booking db now uid id t = (400, db)) ∧
    (0 < id → ¬ t < now →
      (reschedule_booking db now uid id t).1 = 200 ∧
      ∃ f, (reschedule_booking db now uid id t).2 =
          { db with bookings := db.bookings.map f } ∧
        ∀ b : BookingRow,
          ((b.id = id ∧ b.client_id = uid) →
            f b = { b with scheduled_time := t }) ∧
          (¬ (b.id = id ∧ b.client_id = uid) → f b = b) ∧
          (f b).id = b.id ∧ (f b).client_id = b.client_id ∧
          (f b).target_type = b.target_type ∧
          (f b).target_id = b.target_id ∧
          (f b).branch_id = b.branch_id ∧
          (f b).service_id = b.service_id ∧
          (f b).service_description = b.service_description ∧
          (f b).status = b.status ∧ (f b).duration = b.duration) := by
  constructor
  · intro hpast
    unfold reschedule_booking
    repeat' split
    all_goals simp_all
  · intro hid hnotpast
    unfold reschedule_booking
    rw [if_neg (by omega), if_neg hnotpast]
    refine ⟨rfl, _, rfl, ?_⟩
    intro b
    by_cases hb : b.id = id ∧ b.client_id = uid
    · have hcond : (b.id == id && b.client_id == uid) = true := by
        simp [hb.1, hb.2]
      refine ⟨fun _ => by simp [hcond], fun hnotb => absurd hb hnotb, ?_⟩
      simp [hcond]
    · have hcond : ¬ (b.id == id && b.client_id == uid) = true := by
        simp only [Bool.and_eq_true, beq_iff_eq]
        tauto
      refine ⟨fun hb2 => absurd hb2 hb, fun _ => by simp [hcond], ?_⟩
      simp [hcond]

/-- A store with provider 1 and two bookings: booking 1 by client 7 at
time 100 and booking 2 by client 8 already occupying time 200 on the same
provider. -/
def exDbTwoBookings : Db :=
  { exDbProvider with
      bookings :=
        [exBookingCompleted,
         { id := 2, client_id := 8, target_type := "provider",
           target_id := 1, branch_id := none, service_id := none,
           service_description := "cut", scheduled_time := 200,
           status := "pending", duration := some 60 }]
      next_booking_id := 3 }

/-- Witness for reschedule_booking_spec: client 2 moves booking 1 to time
200, which booking 2 already occupies on the same provider; the call
still answers 200 and only booking 1's scheduled_time changes. -/
theorem reschedule_booking_spec_witness :
    slotTaken exDbTwoBookings "provider" 1 200 = true ∧
    (reschedule_booking exDbTwoBookings 50 2 1 200).1 = 200 ∧
    (reschedule_booking exDbTwoBookings 50 2 1 200).2.bookings.map
      (fun b => (b.id, b.scheduled_time, b.status)) =
      [(1, 200, "completed"), (2, 200, "pending")] := by
  refine ⟨by decide, ((reschedule_booking_spec exDbTwoBookings 50 2 1 200).2
    (by decide) (by decide)).1, by decide⟩

lemma markReadRow_idem (ids : List Int) (rid now now₂ : Int)
    (m : MessageRow) :
    markReadRow ids rid now₂ (markReadRow ids rid now m) =
      markReadRow ids rid now m := by
  unfold markReadRow
  by_cases hc : (ids.contains m.id && m.receiver_id == rid &&
      m.is_read == false) = true
  · rw [if_pos hc]
    simp
  · rw [if_neg hc, if_neg hc]

/-- C8: for a well-formed mark_read call (non-empty id list, valid target
type, positive ids) whose caller resolves to receiver row rid, the call
answers 200 and updates exactly the messages in the requested id set that
are addressed to rid and currently unread, setting is_read and read_at;
every other message (already-read ones included) is unchanged, and the
call is idempotent: repeating it with the same arguments (at any later
clock value) answers 200 again and leaves the store exactly as after the
first call. -/
theorem mark_messages_as_read_spec (db : Db) (now now₂ uid : Int)
    (p : MarkReadPayload) (rid : Int)
    (h1 : p.message_ids ≠ []) (h2 : ¬ p.target_type = "")
    (h3 : lowerString p.target_type = "provider" ∨
      lowerString p.target_type = "business")
    (h4 : 0 < p.target_id) (h5 : 0 < p.sender_id)
    (h6 : get_target_id db uid (lowerString p.target_type) = some rid) :
    (mark_messages_as_read db now uid p).1 = 200 ∧
    ((mark_messages_as_read db now uid p).2 =
      { db with messages :=
          db.messages.map (markReadRow p.message_ids rid now) } ∧
      ∀ m : MessageRow,
        ((p.message_ids.contains m.id = true ∧ m.receiver_id = rid ∧
            m.is_read = false) →
          markReadRow p.message_ids rid now m =
            { m with is_read := true, read_at := some now }) ∧
        (¬ (p.message_ids.contains m.id = true ∧ m.receiver_id = rid ∧
            m.is_read = false) →
          markReadRow p.message_ids rid now m = m)) ∧
    mark_messages_as_read (mark_messages_as_read db now uid p).2 now₂ uid p =
      (200, (mark_messages_as_read db now uid p).2) := by
  have hval : ¬ (p.target_type = "" ∨
      (lowerString p.target_type ≠ "provider" ∧
        lowerString p.target_type ≠ "business")) := by
    tauto
  have hstep : mark_messages_as_read db now uid p =
      (200, { db with messages :=
        db.messages.map (markReadRow p.message_ids rid now) }) := by
    unfold mark_messages_as_read
    rw [if_neg h1, if_neg hval, if_neg (by omega), h6]
  refine ⟨by rw [hstep], ⟨by rw [hstep], ?_⟩, ?_⟩
  · intro m
    constructor
    · intro hm
      unfold markReadRow
      rw [if_pos ?_]
      simp only [Bool.and_eq_true, beq_iff_eq]
      exact ⟨⟨hm.1, hm.2.1⟩, by simp [hm.2.2]⟩
    · intro hm
      unfold markReadRow
      rw [if_neg ?_]
      simp only [Bool.and_eq_true, beq_iff_eq]
      tauto
  · rw [hstep]
    unfold mark_messages_as_read
    rw [if_neg h1, if_neg hval, if_neg (by omega)]
    have h6b : get_target_id
        { db with messages :=
          db.messages.map (markReadRow p.message_ids rid now) } uid
        (lowerString p.target_type) = some rid := by
      unfold get_target_id at h6 ⊢
      rcases h3 with h3 | h3 <;> rw [h3] at h6 ⊢ <;> exact h6
    rw [h6b]
    have hmaps : (db.messages.map (markReadRow p.message_ids rid now)).map
        (markReadRow p.message_ids rid now₂) =
        db.messages.map (markReadRow p.message_ids rid now) := by
      rw [List.map_map]
      apply List.map_congr_left
      intro m _
      exact markReadRow_idem p.message_ids rid now now₂ m
    dsimp only
    rw [hmaps]

/-- A store with provider 1 (user 7) and two messages to its row id 1:
message 1 unread and message 2 already read. -/
def exDbMessages : Db :=
  { exDbProvider with
      messages :=
        [{ id := 1, sender_id := 2, receiver_id := 1,
           target_type := "provider", target_id := 1, content := "hi",
           is_read := false, read_at := none },
         { id := 2, sender_id := 2, receiver_id := 1,
           target_type := "provider", target_id := 1, content := "yo",
           is_read := true, read_at := some 10 }] }

/-- Witness for mark_messages_as_read_spec: user 7 (provider row 1) marks
messages 1 and 2; the unread message 1 becomes read at time 20, the
already-read message 2 keeps its original read_at, and a repeat of the
call at time 30 changes nothing. -/
theorem mark_messages_as_read_spec_witness :
    (mark_messages_as_read exDbMessages 20 7
      { target_type := "provider", target_id := 1, sender_id := 2,
        message_ids := [1, 2] }).1 = 200 ∧
    (mark_messages_as_read exDbMessages 20 7
      { target_type := "provider", target_id := 1, sender_id := 2,
        message_ids := [1, 2] }).2.messages.map
      (fun m => (m.id, m.is_read, m.read_at)) =
      [(1, true, some 20), (2, true, some 10)] ∧
    mark_messages_as_read
      (mark_messages_as_read exDbMessages 20 7
        { target_type := "provider", target_id := 1, sender_id := 2,
          message_ids := [1, 2] }).2 30 7
      { target_type := "provider", target_id := 1, sender_id := 2,
        message_ids := [1, 2] } =
      (200, (mark_messages_as_read exDbMessages 20 7
        { target_type := "provider", target_id := 1, sender_id := 2,
          message_ids := [1, 2] }).2) := by
  have h := mark_messages_as_read_spec exDbMessages 20 30 7
    { target_type := "provider", target_id := 1, sender_id := 2,
      message_ids := [1, 2] } 1
    (by decide) (by decide) (by decide) (by decide) (by decide) (by decide)
  exact ⟨h.1, by decide, h.2.2⟩

/-- Number of favorite rows for one (user_id, target_type, target_id)
triple. -/
def favCount (db : Db) (uid : Int) (tt : String) (tid : Int) : Nat :=
  (db.favorites.filter (fun f =>
    f.user_id == uid && f.target_type == tt && f.target_id == tid)).length

lemma favAny_eq_true_of_pos (db : Db) (uid : Int) (tt : String) (tid : Int)
    (h : 0 < favCount db uid tt tid) :
    (db.favorites.any (fun f =>
      f.user_id == uid && f.target_type == tt && f.target_id == tid)) =
      true := by
  unfold favCount at h
  rw [List.any_eq_true]
  rcases List.exists_mem_of_length_pos h with ⟨a, ha⟩
  exact ⟨a, (List.mem_filter.mp ha).1, (List.mem_filter.mp ha).2⟩

lemma favCount_eq_zero_of_any_false (db : Db) (uid : Int) (tt : String)
    (tid : Int)
    (h : (db.favorites.any (fun f =>
      f.user_id == uid && f.target_type == tt && f.target_id == tid)) =
      false) :
    favCount db uid tt tid = 0 := by
  unfold favCount
  rw [List.length_eq_zero]
  rw [List.filter_eq_nil_iff]
  intro a ha hpa
  have : (db.favorites.any (fun f =>
      f.user_id == uid && f.target_type == tt && f.target_id == tid)) =
      true := List.any_eq_true.mpr ⟨a, ha, hpa⟩
  rw [h] at this
  exact Bool.noConfusion this

/-- C9: for a valid target type and positive target id, starting from any
store holding at most one favorite row for the triple, add_favorite
answers 200, a second identical call answers 200 and leaves the store
exactly as the first call did, and afterwards exactly one favorite row
for (user_id, lowercased target_type, target_id) exists. -/
theorem add_favorite_idempotent (db : Db) (uid : Int) (ptt : String)
    (tid : Int)
    (h1 : lowerString ptt = "provider" ∨ lowerString ptt = "business")
    (h2 : 0 < tid)
    (h3 : favCount db uid (lowerString ptt) tid ≤ 1) :
    (add_favorite db uid ptt tid).1 = 200 ∧
    (add_favorite (add_favorite db uid ptt tid).2 uid ptt tid).1 = 200 ∧
    (add_favorite (add_favorite db uid ptt tid).2 uid ptt tid).2 =
      (add_favorite db uid ptt tid).2 ∧
    favCount (add_favorite db uid ptt tid).2 uid (lowerString ptt) tid =
      1 := by
  have hcond : ¬ (lowerString ptt ≠ "provider" ∧
      lowerString ptt ≠ "business") := by tauto
  by_cases hany : (db.favorites.any (fun f =>
      f.user_id == uid && f.target_type == lowerString ptt &&
        f.target_id == tid)) = true
  · have hstep : add_favorite db uid ptt tid = (200, db) := by
      unfold add_favorite
      rw [if_neg hcond, if_neg (by omega), if_pos hany]
    have hcount : favCount db uid (lowerString ptt) tid = 1 := by
      have hpos : 0 < favCount db uid (lowerString ptt) tid := by
        by_contra hc
        have h0 : favCount db uid (lowerString ptt) tid = 0 := by omega
        unfold favCount at h0
        rw [List.length_eq_zero] at h0
        rw [List.any_eq_true] at hany
        rcases hany with ⟨a, ha, hpa⟩
        have : a ∈ db.favorites.filter (fun f =>
            f.user_id == uid && f.target_type == lowerString ptt &&
              f.target_id == tid) := List.mem_filter.mpr ⟨ha, hpa⟩
        rw [h0] at this
        exact List.not_mem_nil a this
      omega
    rw [hstep]
    exact ⟨rfl, by rw [hstep], by rw [hstep], hcount⟩
  · replace hany := Bool.eq_false_iff.mpr hany
    have hstep : add_favorite db uid ptt tid =
        (200, { db with favorites := db.favorites ++
          [{ user_id := uid, target_type := lowerString ptt,
             target_id := tid }] }) := by
      unfold add_favorite
      rw [if_neg hcond, if_neg (by omega), if_neg (by simp [hany])]
    have hself : (fun f : FavoriteRow =>
        f.user_id == uid && f.target_type == lowerString ptt &&
          f.target_id == tid)
        ({ user_id := uid, target_type := lowerString ptt,
           target_id := tid } : FavoriteRow) = true := by simp
    have hany2 : ((db.favorites ++
        [({ user_id := uid, target_type := lowerString ptt,
            target_id := tid } : FavoriteRow)]).any (fun f =>
      f.user_id == uid && f.target_type == lowerString ptt &&
        f.target_id == tid)) = true := by
      rw [List.any_eq_true]
      exact ⟨_, List.mem_append_right _ (List.mem_singleton.mpr rfl), hself⟩
    have hstep2 : add_favorite (add_favorite db uid ptt tid).2 uid ptt tid =
        (200, (add_favorite db uid ptt tid).2) := by
      rw [hstep]
      unfold add_favorite
      rw [if_neg hcond, if_neg (by omega)]
      dsimp only
      rw [if_pos hany2]
    refine ⟨by rw [hstep], by rw [hstep2], by rw [hstep2], ?_⟩
    rw [hstep]
    unfold favCount
    dsimp only
    rw [List.filter_append]
    have h0 := favCount_eq_zero_of_any_false db uid (lowerString ptt) tid
      hany
    unfold favCount at h0
    rw [List.length_eq_zero] at h0
    rw [h0]
    simp [hself]

/-- Witness for add_favorite_idempotent: user 9 favorites provider 1
twice from the empty favorites table; both calls answer 200 and exactly
one row remains. -/
theorem add_favorite_idempotent_witness :
    (add_favorite exDbProvider 9 "provider" 1).1 = 200 ∧
    (add_favorite (add_favorite exDbProvider 9 "provider" 1).2 9
      "provider" 1).1 = 200 ∧
    (add_favorite (add_favorite exDbProvider 9 "provider" 1).2 9
      "provider" 1).2 = (add_favorite exDbProvider 9 "provider" 1).2 ∧
    favCount (add_favorite exDbProvider 9 "provider" 1).2 9
      (lowerString "provider") 1 = 1 :=
  add_favorite_idempotent exDbProvider 9 "provider" 1
    (by decide) (by decide) (by decide)

end Mtaalink
